import Mathlib

/-!
Verification of the Erroneous-LineString-Fixer pipeline.

The development shallowly embeds the two source modules:
  * `difference_intersecting_lines.py` — the difference engine
    (`filter_non_intersecting_lines`), reverse geocoding
    (`reverse_geocode`, `batch_reverse_geocode`) and street-name
    extraction (`extract_street_name`);
  * `linestrings_plotter.py` — the map-matching engine
    (`correct_erroneous_line`, `correct_lines_in_dataframe`).

Python strings are embedded as `List Char`; pandas scalar values that may
be `None`/NaN are embedded as `Option`; external collaborators (the
geocoding HTTP call, osmnx nearest-node snapping, the pyproj geodesic
distance, the networkx shortest path) are parameters of the embedded
functions, as the spec designates them external interfaces.
-/

/-! ## Python string primitives used by `extract_street_name` -/

/-- The whitespace characters stripped by Python `str.strip()` and matched
by the regex class `\s` (restricted to the ASCII range, which covers all
inputs the code handles). -/
def isPySpace (c : Char) : Bool :=
  c = ' ' || c = '\t' || c = '\n' || c = '\x0d' || c = '\x0b' || c = '\x0c'

/-- Python `s.split(sep)` for a one-character separator: every occurrence
splits; `"".split(",") = [""]`. -/
def pySplit (sep : Char) : List Char → List (List Char)
  | [] => [[]]
  | c :: rest =>
    match pySplit sep rest with
    | [] => if c = sep then [[], []] else [[c]]
    | h :: t => if c = sep then [] :: h :: t else (c :: h) :: t

/-- Python `s.strip()`: remove leading and trailing whitespace. -/
def pyStrip (s : List Char) : List Char :=
  ((s.dropWhile isPySpace).reverse.dropWhile isPySpace).reverse

/-- A character of the regex class `[A-Za-z\-]` (unit identifiers such as
the `b` of `13b`). -/
def isUnitChar (c : Char) : Bool :=
  c.isAlpha || c = '-'

/-- `re.sub(r"^\s*\d+[A-Za-z\-]*\s+", "", s)`: if the string starts
(after optional whitespace) with one or more digits, then optionally
letters/hyphens, then at least one whitespace, drop that whole match;
otherwise return the string unchanged.  The three character classes are
pairwise disjoint, so the greedy left-to-right scan below is exactly the
regex semantics (no backtracking can extend a match). -/
def subLeadingHouseNumber (s : List Char) : List Char :=
  let s1 := s.dropWhile isPySpace
  if (s1.takeWhile Char.isDigit).isEmpty then s
  else
    let s2 := s1.dropWhile Char.isDigit
    let s3 := s2.dropWhile isUnitChar
    if (s3.takeWhile isPySpace).isEmpty then s
    else s3.dropWhile isPySpace

/-- A dynamically typed Python value, as far as `extract_street_name` can
observe one: a `str`, or any non-`str` value (`None`, a float NaN from
pandas, an int, …). -/
inductive PyVal where
  | str (s : List Char)
  | pyNone
  | nan
  | int (n : Int)
deriving DecidableEq

/-- `extract_street_name` from `difference_intersecting_lines.py`:
guard non-`str` or blank input, split on commas, take the first segment
stripped, remove a leading house-number prefix, and fall back to the
first segment when the removal leaves nothing. -/
def extract_street_name (address : PyVal) : List Char :=
  match address with
  | .str s =>
    if (pyStrip s).isEmpty then []
    else
      let parts := pySplit ',' s
      let first_part := pyStrip (parts.headD [])
      let cleaned := subLeadingHouseNumber first_part
      if cleaned.isEmpty then first_part else cleaned
  | _ => []

/-! ## Difference engine (`filter_non_intersecting_lines`)

A single-part line geometry is embedded as its set of points (a
`Finset (ℤ × ℤ)`); two geometries intersect exactly when they share a
point, which makes "touching at a single endpoint" count as
intersecting, as shapely's `intersects` does.  `unary_union` is the
union of all parts; `explode` flattens multi-part records into their
parts. -/

/-- A single-part geometry: its (finite) set of points. -/
abbrev Geom := Finset (ℤ × ℤ)

/-- shapely `a.intersects(b)`: the two point sets share at least one
point (any non-empty overlap, including a single shared endpoint). -/
def geomIntersects (a b : Geom) : Bool :=
  decide (a ∩ b).Nonempty

/-- geopandas `gdf.unary_union` of the (exploded) parts of a set. -/
def unary_union (A : List Geom) : Geom :=
  A.foldr (fun g acc => g ∪ acc) ∅

/-- geopandas `gdf.explode(...)`: one row per constituent single part of
each (multi-part) record. -/
def explode (recs : List (List Geom)) : List Geom :=
  recs.flatten

/-- The core filter `gdf_2[~gdf_2.intersects(gdf_1.unary_union)]`:
retain each exploded part of B that does not intersect the unary union
of A's exploded parts. -/
def differenceEngine (A B : List Geom) : List Geom :=
  B.filter (fun g => !geomIntersects g (unary_union A))

/-- Errors the difference stage can abort with.  `crsMismatch` is raised
by `pd.concat` when the layers' GeoSeries do not share one CRS;
`noObjectsToConcatenate` is `pd.concat`'s error on an empty layer list.
Nothing in the stage raises an emptiness error. -/
inductive PipelineError where
  | crsMismatch
  | noObjectsToConcatenate
deriving DecidableEq

/-- One vector layer read from the first dataset: its CRS tag and its
(possibly multi-part) geometry records. -/
structure Layer where
  crs : Nat
  geoms : List (List Geom)
deriving DecidableEq

/-- `pd.concat(gdf, ignore_index=True)` over the per-layer
GeoDataFrames: fails when the layers do not all share one CRS
(geopandas cannot determine a common CRS), otherwise concatenates the
records in layer order. -/
def concatLayers : List Layer → Except PipelineError (List (List Geom))
  | [] => .error .noObjectsToConcatenate
  | l :: ls =>
    if ls.all (fun x => x.crs = l.crs) then
      .ok ((l :: ls).map Layer.geoms).flatten
    else
      .error .crsMismatch

/-- `filter_non_intersecting_lines` up to and including the difference
step: merge A's layers (CRS normalization of B is the external
`to_crs` collaborator and leaves the abstract point sets unchanged),
explode both datasets, and filter B by non-intersection with A's unary
union.  No emptiness check is performed anywhere on the path. -/
def filter_non_intersecting_lines (layersA : List Layer)
    (recsB : List (List Geom)) : Except PipelineError (List Geom) := do
  let multiA ← concatLayers layersA
  let gdf_1 := explode multiA
  let gdf_2 := explode recsB
  return differenceEngine gdf_1 gdf_2

/-! ## Reverse geocoding (`reverse_geocode`, `batch_reverse_geocode`)

The HTTP request to the geocoding service is the external collaborator:
it is embedded as a `lookup` function whose outcome is a found address,
a no-match response, or a failure (network error / exception).  The
`try/except` of `reverse_geocode` maps both non-found outcomes to
`None`.  `batch_reverse_geocode` iterates `gdf.iterrows()`, whose `i`
is the pandas *index label* of the row, not its processing position;
the pause fires when `(i + 1) % batch_size == 0`.  Rows are therefore
embedded as (index label, (lat, lon)) pairs, and the batch result
records the addresses plus the 1-based processing positions after which
a pause (`time.sleep`) fired. -/

/-- Outcome of the external geocoding request for one coordinate. -/
inductive LookupOutcome where
  | found (addr : List Char)
  | noMatch
  | failure
deriving DecidableEq

/-- `reverse_geocode(lat, lon, api_key)`: the formatted address when the
service returns one, `None` on no-match, and `None` again when the
request raises (the `except` branch). -/
def reverse_geocode (lookup : ℚ → ℚ → LookupOutcome) (lat lon : ℚ) :
    Option (List Char) :=
  match lookup lat lon with
  | .found a => some a
  | .noMatch => Option.none
  | .failure => Option.none

/-- Result of `batch_reverse_geocode`: the per-row addresses (in row
order) and the 1-based processing positions after which the loop
slept. -/
structure GeocodeBatch where
  addresses : List (Option (List Char))
  pausePositions : List Nat
deriving DecidableEq

/-- `batch_reverse_geocode(gdf, api_key, batch_size=50, delay=2)`: for
every row (in order) reverse-geocode its centroid, and sleep after each
row whose index label `i` satisfies `(i + 1) % batch_size == 0`. -/
def batch_reverse_geocode (lookup : ℚ → ℚ → LookupOutcome)
    (rows : List (Nat × (ℚ × ℚ))) (batch_size : Nat) : GeocodeBatch :=
  { addresses := rows.map (fun r => reverse_geocode lookup r.2.1 r.2.2),
    pausePositions := rows.enum.filterMap (fun e =>
      if (e.2.1 + 1) % batch_size = 0 then some (e.1 + 1) else Option.none) }

/-! ## Name filling (C9) -/

/-- One enriched row: its source `name` attribute and the `address`
produced by geocoding (both nullable object cells). -/
structure EnrichRow where
  name : Option (List Char)
  address : Option (List Char)
deriving DecidableEq

/-- A nullable pandas object cell as the Python value
`extract_street_name` receives: a string or `None`. -/
def pyValOfCell : Option (List Char) → PyVal
  | some s => .str s
  | Option.none => .pyNone

/-- pandas `Series.fillna(fallback)` at one cell: keep a non-null value,
replace a null one. -/
def fillna (v : Option (List Char)) (fallback : List Char) :
    Option (List Char) :=
  match v with
  | some x => some x
  | Option.none => some fallback

/-- The name-filling line
`gdf_diff["name"] = gdf_diff["name"].fillna(gdf_diff["address"].apply(extract_street_name))`:
each row's name is kept if present, else set to the street-name token
derived from that row's address. -/
def fill_missing_names (rows : List EnrichRow) : List EnrichRow :=
  rows.map (fun r =>
    { r with name := fillna r.name (extract_street_name (pyValOfCell r.address)) })

/-! ## Map-matching engine (`correct_erroneous_line`,
`correct_lines_in_dataframe`)

Coordinates are rationals; a NaN cell is `Option.none`.  The external
collaborators — osmnx `nearest_nodes`, the pyproj WGS84 `Geod.inv`
distance, and networkx `shortest_path` — are the fields of a
`RoutingEnv` parameter; `shortestPath = Option.none` stands for the
`NetworkXNoPath` / `NodeNotFound` exceptions, and a failed node lookup
(`KeyError`, swallowed by the bare `except`) is `nodes n = Option.none`. -/

/-- A graph node's coordinates: `x` is longitude, `y` is latitude, as in
osmnx node attributes. -/
structure NodeCoord where
  x : ℚ
  y : ℚ
deriving DecidableEq

/-- The road-network graph: node id → coordinates (read-only). -/
structure RoadGraph where
  nodes : Nat → Option NodeCoord

/-- The three external routing collaborators.  `nearestNode g X Y` is
`ox.distance.nearest_nodes(g, X, Y)` (X = longitude, Y = latitude);
`geodInv lon1 lat1 lon2 lat2` is `Geod(ellps="WGS84").inv(...)[2]`;
`shortestPath g u v` is `nx.shortest_path(g, u, v, weight="length")`,
`Option.none` when networkx raises `NetworkXNoPath`/`NodeNotFound`. -/
structure RoutingEnv where
  nearestNode : RoadGraph → ℚ → ℚ → Nat
  geodInv : ℚ → ℚ → ℚ → ℚ → ℚ
  shortestPath : RoadGraph → Nat → Nat → Option (List Nat)

/-- One tabular row of endpoint coordinates (NaN cells are `none`). -/
structure Row where
  start_north : Option ℚ
  start_east : Option ℚ
  end_north : Option ℚ
  end_east : Option ℚ
deriving DecidableEq

/-- `correct_erroneous_line(row, g)`: NaN-check the four coordinates,
snap both endpoints (X = east/longitude, Y = north/latitude), compute
the geodesic distance between the snapped nodes' true coordinates,
short-circuit to `None` when it is exactly zero, compute the shortest
path, return `None` when it has fewer than 2 nodes, else build the
line from the path nodes' (x, y) coordinates.  Every failure — NaN,
routing exception, missing node attribute — returns `None`. -/
def correct_erroneous_line (env : RoutingEnv) (g : RoadGraph) (row : Row) :
    Option (List (ℚ × ℚ)) :=
  match row.start_north, row.start_east, row.end_north, row.end_east with
  | some sn, some se, some en, some ee =>
    let orig_node := env.nearestNode g se sn
    let dest_node := env.nearestNode g ee en
    match g.nodes orig_node, g.nodes dest_node with
    | some oc, some dc =>
      let distance_m := env.geodInv oc.x oc.y dc.x dc.y
      if distance_m = 0 then Option.none
      else
        match env.shortestPath g orig_node dest_node with
        | Option.none => Option.none
        | some route =>
          if route.length < 2 then Option.none
          else route.mapM (fun n => (g.nodes n).map (fun c => (c.x, c.y)))
    | _, _ => Option.none
  | _, _, _, _ => Option.none

/-- Result of `correct_lines_in_dataframe`: the per-row geometry column
after correction, and the reported count of successfully routed rows. -/
structure CorrectionBatch where
  geometry : List (Option (List (ℚ × ℚ)))
  successful_routes : Nat
deriving DecidableEq

/-- `correct_lines_in_dataframe(data, g)`: apply `correct_erroneous_line`
row-wise to rewrite the geometry column, and report
`successful_routes = data["geometry"].notna().sum()`. -/
def correct_lines_in_dataframe (env : RoutingEnv) (rows : List Row)
    (g : RoadGraph) : CorrectionBatch :=
  let geoms := rows.map (fun r => correct_erroneous_line env g r)
  { geometry := geoms,
    successful_routes := geoms.countP (fun o => o.isSome) }

/-- A one-node demonstration graph (node 0 at longitude 3, latitude 6). -/
def demoGraph : RoadGraph :=
  ⟨fun n => if n = 0 then some ⟨3, 6⟩ else Option.none⟩

/-- A demonstration environment: everything snaps to node 0, the
geodesic distance is zero exactly between identical coordinates, and no
path is ever found. -/
def demoEnv : RoutingEnv :=
  { nearestNode := fun _ _ _ => 0,
    geodInv := fun x1 y1 x2 y2 => if x1 = x2 ∧ y1 = y2 then 0 else 1,
    shortestPath := fun _ _ _ => Option.none }

/-! ## Claim C4 / C10 theorems -/

/-- Helper: `subLeadingHouseNumber` never invents characters — its result
is a suffix of its argument. -/
theorem subLeadingHouseNumber_suffix (s : List Char) :
    subLeadingHouseNumber s <:+ s := by
  simp only [subLeadingHouseNumber]
  split
  · exact List.suffix_refl s
  · split
    · exact List.suffix_refl s
    · exact (List.dropWhile_suffix _).trans ((List.dropWhile_suffix _).trans
        ((List.dropWhile_suffix _).trans (List.dropWhile_suffix _)))

/-- C4: `extract_street_name` splits on commas, takes the first segment,
strips a leading house-number-like prefix, and falls back to the
(house-number-)unstripped first segment when stripping empties it; on the
spec's four example inputs it produces exactly the example outputs. -/
theorem extract_street_name_examples :
    extract_street_name
        (.str ("9 Abudu Oladejo St, Papa Ashafa, Lagos 102212, Lagos, Nigeria".toList))
      = "Abudu Oladejo St".toList
  ∧ extract_street_name
        (.str ("13b Peace Cl, Ifako Agege, Lagos 101232, Lagos, Nigeria".toList))
      = "Peace Cl".toList
  ∧ extract_street_name (.str "".toList) = "".toList
  ∧ extract_street_name .pyNone = "".toList := by
  refine ⟨?_, ?_, rfl, rfl⟩ <;> rfl

/-- C10: `extract_street_name` is total over every embedded Python value;
every non-`str` input and every blank (empty or whitespace-only) string
gives the empty string, and on any string the result is the stripped
first comma-separated segment or a suffix of it. -/
theorem extract_street_name_total :
    (∀ v : PyVal, (∀ s, v ≠ .str s) → extract_street_name v = [])
  ∧ (∀ s : List Char, (pyStrip s).isEmpty →
      extract_street_name (.str s) = [])
  ∧ (∀ s : List Char,
      extract_street_name (.str s) <:+ pyStrip ((pySplit ',' s).headD [])) := by
  refine ⟨?_, ?_, ?_⟩
  · intro v hv
    cases v with
    | str s => exact absurd rfl (hv s)
    | pyNone => rfl
    | nan => rfl
    | int n => rfl
  · intro s hs
    simp [extract_street_name, hs]
  · intro s
    simp only [extract_street_name]
    split
    · exact List.nil_suffix
    · split
      · exact List.suffix_refl _
      · exact subLeadingHouseNumber_suffix _

/-- Witness for C10 at concrete inputs: a NaN value, a whitespace-only
string, and a string whose extracted token is a proper suffix of its
first segment. -/
theorem extract_street_name_total_witness :
    extract_street_name .nan = []
  ∧ extract_street_name (.str "   ".toList) = []
  ∧ extract_street_name (.str "12 Main Rd, X".toList)
      <:+ pyStrip ((pySplit ',' "12 Main Rd, X".toList).headD []) :=
  ⟨extract_street_name_total.1 .nan (fun s h => PyVal.noConfusion h),
   extract_street_name_total.2.1 "   ".toList (by decide),
   extract_street_name_total.2.2 "12 Main Rd, X".toList⟩

/-! ## Claim C2 / C7 theorems -/

/-- Membership in the unary union is membership in some part. -/
theorem mem_unary_union (A : List Geom) (p : ℤ × ℤ) :
    p ∈ unary_union A ↔ ∃ a ∈ A, p ∈ a := by
  induction A with
  | nil => simp [unary_union]
  | cons a A ih =>
    simp only [unary_union, List.foldr_cons, Finset.mem_union, List.mem_cons]
    rw [unary_union] at ih
    rw [ih]
    constructor
    · rintro (h | ⟨b, hb, hp⟩)
      · exact ⟨a, Or.inl rfl, h⟩
      · exact ⟨b, Or.inr hb, hp⟩
    · rintro ⟨b, (rfl | hb), hp⟩
      · exact Or.inl hp
      · exact Or.inr ⟨b, hb, hp⟩

/-- C2: a part `g` of (decomposed) B is retained iff it does not
intersect the unary union of A's parts — equivalently, iff it shares a
point with no part of A; a part sharing even one point with some part
of A is excluded; the output draws only from B and is no longer than
(decomposed) B. -/
theorem differenceEngine_spec (A B : List Geom) (g : Geom) :
    (g ∈ differenceEngine A B ↔ g ∈ B ∧ ¬ ∃ a ∈ A, ((g ∩ a).Nonempty))
  ∧ (∀ p : ℤ × ℤ, p ∈ g → (∃ a ∈ A, p ∈ a) → g ∉ differenceEngine A B)
  ∧ (∀ x ∈ differenceEngine A B, x ∈ B)
  ∧ (differenceEngine A B).length ≤ B.length := by
  have hiff : ∀ h : Geom, (h ∩ unary_union A).Nonempty ↔ ∃ a ∈ A, ((h ∩ a).Nonempty) := by
    intro h
    constructor
    · rintro ⟨p, hp⟩
      rw [Finset.mem_inter] at hp
      obtain ⟨a, ha, hpa⟩ := (mem_unary_union A p).1 hp.2
      exact ⟨a, ha, p, Finset.mem_inter.2 ⟨hp.1, hpa⟩⟩
    · rintro ⟨a, ha, p, hp⟩
      rw [Finset.mem_inter] at hp
      exact ⟨p, Finset.mem_inter.2 ⟨hp.1, (mem_unary_union A p).2 ⟨a, ha, hp.2⟩⟩⟩
  have hmem : ∀ x : Geom, x ∈ differenceEngine A B ↔
      x ∈ B ∧ ¬ ∃ a ∈ A, ((x ∩ a).Nonempty) := by
    intro x
    rw [differenceEngine, List.mem_filter]
    simp only [Bool.not_eq_true', geomIntersects, decide_eq_false_iff_not, hiff]
  refine ⟨hmem g, ?_, fun x hx => (hmem x).1 hx |>.1, List.length_filter_le _ _⟩
  intro p hpg ⟨a, ha, hpa⟩ hg
  exact ((hmem g).1 hg).2 ⟨a, ha, p, Finset.mem_inter.2 ⟨hpg, hpa⟩⟩

/-- Witness for C2 at concrete inputs: with A = one part `{(0,0)}` and
B = two parts `{(0,0),(0,1)}` (touches A at the single point `(0,0)`)
and `{(5,5)}` (disjoint from A), the touching part is excluded and the
disjoint part retained. -/
theorem differenceEngine_spec_witness :
    ({(0, 0), (0, 1)} : Geom) ∉
      differenceEngine [{(0, 0)}] [{(0, 0), (0, 1)}, {(5, 5)}]
  ∧ ({(5, 5)} : Geom) ∈
      differenceEngine [{(0, 0)}] [{(0, 0), (0, 1)}, {(5, 5)}] :=
  ⟨(differenceEngine_spec [{(0, 0)}] [{(0, 0), (0, 1)}, {(5, 5)}]
      {(0, 0), (0, 1)}).2.1 (0, 0) (by decide)
      ⟨{(0, 0)}, by decide, by decide⟩,
   (differenceEngine_spec [{(0, 0)}] [{(0, 0), (0, 1)}, {(5, 5)}]
      {(5, 5)}).1.2 ⟨by decide, by decide⟩⟩

/-- Counterexample for C7: with a single valid layer for A and an empty
candidate set B (zero geometries after decomposition), the stage does
not fail with any error — it returns an ordinary (empty) result, so no
`EmptyInput` abort exists. -/
theorem filter_non_intersecting_lines_empty_ok :
    filter_non_intersecting_lines [⟨4326, [[{(0, 0)}]]⟩] [] = .ok [] := by
  rfl

/-- C7 amended: a CRS mismatch among A's layers does abort the stage
with a (library-raised) error visible to the caller, but zero
geometries in A or B never abort: whenever the layer list is non-empty
and CRS-uniform the stage returns `.ok`, regardless of emptiness. -/
theorem filter_non_intersecting_lines_errors (l : Layer) (ls : List Layer)
    (recsB : List (List Geom)) :
    ((ls.all (fun x => x.crs = l.crs)) = false →
      filter_non_intersecting_lines (l :: ls) recsB = .error .crsMismatch)
  ∧ ((ls.all (fun x => x.crs = l.crs)) = true →
      filter_non_intersecting_lines (l :: ls) recsB =
        .ok (differenceEngine (explode ((l :: ls).map Layer.geoms).flatten)
              (explode recsB))) := by
  constructor
  · intro h
    simp [filter_non_intersecting_lines, concatLayers, h, Except.bind]
  · intro h
    simp [filter_non_intersecting_lines, concatLayers, h, Except.bind]

/-- Witness for C7's amended claim: two layers with CRS tags 4326 and
32631 abort with `crsMismatch`; a uniform-CRS layer list with an empty
B returns `.ok`. -/
theorem filter_non_intersecting_lines_errors_witness :
    filter_non_intersecting_lines
        [⟨4326, [[{(0, 0)}]]⟩, ⟨32631, [[{(1, 1)}]]⟩] [[{(2, 2)}]]
      = .error .crsMismatch
  ∧ filter_non_intersecting_lines [⟨4326, []⟩, ⟨4326, []⟩] [] = .ok [] :=
  ⟨(filter_non_intersecting_lines_errors ⟨4326, [[{(0, 0)}]]⟩
      [⟨32631, [[{(1, 1)}]]⟩] [[{(2, 2)}]]).1 (by decide),
   (filter_non_intersecting_lines_errors ⟨4326, []⟩ [⟨4326, []⟩] []).2
      (by decide)⟩

/-! ## Claim C3 / C8 theorems -/

/-- C3: the pause is keyed on the pandas index label, not on the count
of processed rows.  A 120-row batch with the default contiguous index
0..119 pauses exactly twice, after processed rows 50 and 100 — but the
same 120 rows carrying the non-contiguous index labels 0,2,4,...,238
(the shape `filter_non_intersecting_lines` actually produces, since its
boolean filtering keeps the exploded frame's original labels) trigger
no pause at all, defeating the quota protection the code's own comment
("Pause every batch to avoid quota issues") requires. -/
theorem batch_reverse_geocode_pause_on_labels :
    (batch_reverse_geocode (fun _ _ => .noMatch)
        ((List.range 120).map (fun k => (k, ((0 : ℚ), (0 : ℚ))))) 50).pausePositions
      = [50, 100]
  ∧ (batch_reverse_geocode (fun _ _ => .noMatch)
        ((List.range 120).map (fun k => (2 * k, ((0 : ℚ), (0 : ℚ))))) 50).pausePositions
      = [] := by
  constructor <;> rfl

/-- C8: every row of a batch gets exactly one address slot, in input
order, each computed from that row's own lookup outcome alone; a failed
or no-match lookup degrades to `None` for that row only, and the batch
function is total — no outcome aborts it. -/
theorem batch_reverse_geocode_per_row (lookup : ℚ → ℚ → LookupOutcome)
    (rows : List (Nat × (ℚ × ℚ))) (batch_size : Nat) :
    (batch_reverse_geocode lookup rows batch_size).addresses.length = rows.length
  ∧ (∀ j : Nat, (batch_reverse_geocode lookup rows batch_size).addresses[j]? =
      rows[j]?.map (fun r => reverse_geocode lookup r.2.1 r.2.2))
  ∧ (∀ lat lon, lookup lat lon = .failure →
      reverse_geocode lookup lat lon = Option.none)
  ∧ (∀ lat lon, lookup lat lon = .noMatch →
      reverse_geocode lookup lat lon = Option.none) := by
  refine ⟨List.length_map _ _, fun j => List.getElem?_map _ _ _, ?_, ?_⟩
  · intro lat lon h
    simp [reverse_geocode, h]
  · intro lat lon h
    simp [reverse_geocode, h]

/-- Witness for C8: under a lookup that always fails, the address
degrades to `None` and a two-row batch still yields two address slots. -/
theorem batch_reverse_geocode_per_row_witness :
    reverse_geocode (fun _ _ => LookupOutcome.failure) 1 2 = Option.none
  ∧ (batch_reverse_geocode (fun _ _ => LookupOutcome.failure)
      [(0, (1, 2)), (1, (3, 4))] 50).addresses.length = 2 :=
  ⟨(batch_reverse_geocode_per_row (fun _ _ => LookupOutcome.failure)
      [(0, (1, 2)), (1, (3, 4))] 50).2.2.1 1 2 rfl,
   (batch_reverse_geocode_per_row (fun _ _ => LookupOutcome.failure)
      [(0, (1, 2)), (1, (3, 4))] 50).1⟩

/-- C9: a row that already carries a (non-null, in particular non-empty)
name keeps it unchanged — the whole row is unchanged — and the derived
token is assigned exactly to the rows whose name is missing. -/
theorem fill_missing_names_spec (rows : List EnrichRow) (j : Nat)
    (r : EnrichRow) (h : rows[j]? = some r) :
    (∀ v, r.name = some v → (fill_missing_names rows)[j]? = some r)
  ∧ (r.name = Option.none →
      (fill_missing_names rows)[j]? =
        some { r with
                name := some (extract_street_name (pyValOfCell r.address)) }) := by
  constructor
  · intro v hv
    rw [fill_missing_names, List.getElem?_map, h]
    cases r
    simp_all [fillna]
  · intro hv
    rw [fill_missing_names, List.getElem?_map, h]
    cases r
    simp_all [fillna]

/-- Witness for C9: in a two-row set, the row named "Main" is untouched
and the unnamed row receives the token derived from its address. -/
theorem fill_missing_names_spec_witness :
    (fill_missing_names
        [⟨some "Main".toList, some "X".toList⟩,
         ⟨Option.none, some "12 Main Rd, X".toList⟩])[0]?
      = some ⟨some "Main".toList, some "X".toList⟩
  ∧ (fill_missing_names
        [⟨some "Main".toList, some "X".toList⟩,
         ⟨Option.none, some "12 Main Rd, X".toList⟩])[1]?
      = some ⟨some "Main Rd".toList, some "12 Main Rd, X".toList⟩ :=
  ⟨(fill_missing_names_spec
      [⟨some "Main".toList, some "X".toList⟩,
       ⟨Option.none, some "12 Main Rd, X".toList⟩] 0
      ⟨some "Main".toList, some "X".toList⟩ rfl).1 "Main".toList rfl,
   (fill_missing_names_spec
      [⟨some "Main".toList, some "X".toList⟩,
       ⟨Option.none, some "12 Main Rd, X".toList⟩] 1
      ⟨Option.none, some "12 Main Rd, X".toList⟩ rfl).2 rfl⟩

/-! ## Claim C1 / C5 / C6 theorems -/

/-- C6: when any of the four endpoint coordinates is NaN the row's
result is the `None` marker, for ANY snapping/distance/routing
collaborators — the quantification over `env` is exactly the statement
that nearest-node snapping is never consulted for such a row. -/
theorem correct_erroneous_line_missing (env : RoutingEnv) (g : RoadGraph)
    (row : Row)
    (h : row.start_north = Option.none ∨ row.start_east = Option.none
       ∨ row.end_north = Option.none ∨ row.end_east = Option.none) :
    correct_erroneous_line env g row = Option.none := by
  rcases hsn : row.start_north with _ | sn <;>
    rcases hse : row.start_east with _ | se <;>
      rcases hen : row.end_north with _ | en <;>
        rcases hee : row.end_east with _ | ee <;>
          simp_all [correct_erroneous_line]

/-- Witness for C6: a row whose end latitude is missing maps to `None`
under the demonstration collaborators. -/
theorem correct_erroneous_line_missing_witness :
    correct_erroneous_line demoEnv demoGraph
      { start_north := some 6, start_east := some 3,
        end_north := Option.none, end_east := some 3 } = Option.none :=
  correct_erroneous_line_missing demoEnv demoGraph
    { start_north := some 6, start_east := some 3,
      end_north := Option.none, end_east := some 3 }
    (Or.inr (Or.inr (Or.inl rfl)))

/-- C5: when the geodesic distance between the snapped nodes is exactly
zero, or the computed shortest path has fewer than 2 nodes, the row's
result is the `None` marker — never a 1-point or 0-length line. -/
theorem correct_erroneous_line_degenerate (env : RoutingEnv) (g : RoadGraph)
    (row : Row) (sn se en ee : ℚ) (oc dc : NodeCoord)
    (hsn : row.start_north = some sn) (hse : row.start_east = some se)
    (hen : row.end_north = some en) (hee : row.end_east = some ee)
    (ho : g.nodes (env.nearestNode g se sn) = some oc)
    (hd : g.nodes (env.nearestNode g ee en) = some dc)
    (hdeg : env.geodInv oc.x oc.y dc.x dc.y = 0
      ∨ ∃ route, env.shortestPath g (env.nearestNode g se sn)
            (env.nearestNode g ee en) = some route ∧ route.length < 2) :
    correct_erroneous_line env g row = Option.none := by
  rw [correct_erroneous_line, hsn, hse, hen, hee]
  simp only [ho, hd]
  rcases hdeg with h0 | ⟨route, hsp, hlen⟩
  · simp [h0]
  · by_cases h0 : env.geodInv oc.x oc.y dc.x dc.y = 0
    · simp [h0]
    · simp [h0, hsp, hlen]

/-- Witness for C5: a row whose two endpoints snap to the same node of
the demonstration graph has geodesic distance 0 and maps to `None`. -/
theorem correct_erroneous_line_degenerate_witness :
    correct_erroneous_line demoEnv demoGraph
      { start_north := some 6, start_east := some 3,
        end_north := some 6, end_east := some 3 } = Option.none :=
  correct_erroneous_line_degenerate demoEnv demoGraph
    { start_north := some 6, start_east := some 3,
      end_north := some 6, end_east := some 3 }
    6 3 6 3 ⟨3, 6⟩ ⟨3, 6⟩ rfl rfl rfl rfl rfl rfl
    (Or.inl (by decide))

/-- Counterexample for C1: the code's per-row results carry no reason
tag.  A row failing for a missing coordinate and a row failing because
its endpoints snap to one node (distance 0, a degenerate case) produce
the literally identical bare `None` marker, and the batch reports them
only through the success count — so no `CorrectionResult` carries a
reason tag such as 'missing-coordinate' or 'degenerate'. -/
theorem correct_lines_in_dataframe_untagged :
    correct_lines_in_dataframe demoEnv
      [{ start_north := Option.none, start_east := some 3,
         end_north := some 6, end_east := some 3 },
       { start_north := some 6, start_east := some 3,
         end_north := some 6, end_east := some 3 }] demoGraph
      = ⟨[Option.none, Option.none], 0⟩ := by
  decide

/-- C1 amended: `correct_lines_in_dataframe` yields exactly one result
per input row, in input order, each the untagged `correct_erroneous_line`
outcome of its own row (a corrected line or the bare `None` marker, with
no reason tag), and reports the count of successfully corrected rows. -/
theorem correct_lines_in_dataframe_per_row (env : RoutingEnv)
    (rows : List Row) (g : RoadGraph) :
    (correct_lines_in_dataframe env rows g).geometry.length = rows.length
  ∧ (∀ j : Nat, (correct_lines_in_dataframe env rows g).geometry[j]? =
      rows[j]?.map (fun r => correct_erroneous_line env g r))
  ∧ (correct_lines_in_dataframe env rows g).successful_routes =
      rows.countP (fun r => (correct_erroneous_line env g r).isSome) := by
  refine ⟨List.length_map _ _, fun j => List.getElem?_map _ _ _, ?_⟩
  simp only [correct_lines_in_dataframe, List.countP_map]
  rfl
